import Mathlib

/-!
Formal model of the Meta-Everything Agent execution controller.

The definitions below are a shallow embedding of the controller code:
`get_meta_system_prompt` from `prompts.py` and the `MetaEverythingAgent`
class from `agent.py` (construction, `__call__`, `_initialize_context`,
`reset`).  Python integers are modelled as `Int`, optional strings as
`Option String` (with Python truthiness made explicit), and the external
memory call as an `Except` value supplied by the environment.  The
delegated reasoning turn is a function parameter returning `Except`.
-/

/-- Python `str.upper()` restricted to what the code needs: upper-case every
character of the string. -/
def strUpper (s : String) : String := ⟨s.data.map Char.toUpper⟩

/-- Python truthiness of an `Optional[str]` value: `None` and the empty
string are falsy, every other string is truthy. -/
def pyTruthy : Option String → Bool
  | none => false
  | some s => !(s == "")

/-- The urgency computation of `get_meta_system_prompt` (prompts.py line 27):
`"HIGH" if remaining_steps < 3 else "MEDIUM" if remaining_steps < 7 else "LOW"`. -/
def classifyUrgency (remaining_steps : Int) : String :=
  if remaining_steps < 3 then "HIGH"
  else if remaining_steps < 7 then "MEDIUM"
  else "LOW"

/-- Fixed template text of the prompt from `<role>` up to the objective value. -/
def tplRole : String :=
  "<role>\nYou are Meta-Everything Agent, an advanced autonomous problem-solving system implementing metacognitive reasoning with continuous self-assessment and adaptation. You systematically tackle any challenge through intelligent tool selection, dynamic capability creation, and cross-session learning.\n</role>\n\n<mission_parameters>\n- Objective: "

/-- Fixed template text from the end of the mission parameters up to the
interpolated swarm configuration. -/
def tplArchitecture : String :=
  "\n</mission_parameters>\n\n<cognitive_architecture>\n## Memory Systems\n- Working Memory: Current problem state and active operations\n- Episodic Memory: Past experiences stored via mem0_memory with user_id=\"meta_agent\"\n- Semantic Memory: Domain knowledge and learned patterns (LLM knowledge + stored insights)\n- Procedural Memory: Tool registry + dynamic tool creation capability\n</cognitive_architecture>\n\n<meta_capabilities>\n## 1. META-AGENT (Dynamic Agent Spawning)\nDeploy specialized agents for complex subtasks:\n\n**Task Format (KEEP CONCISE - Max 120 words):**\n```\nFIRST ACTION: mem0_memory(action=\"list\", user_id=\"meta_agent\") to retrieve all past findings\nCONTEXT: [What has been done: tools used, solutions found, progress made]\nOBJECTIVE: [ONE specific goal, not general exploration]\nAVOID: [List what NOT to repeat based on memory retrieval]\nFOCUS: [Specific area/technique to explore]\nSUCCESS: [Clear, measurable outcome]\n```\n\n**CRITICAL: Each swarm agent MUST:**\n1. First retrieve memories with mem0_memory to understand completed work\n2. Analyze retrieved findings before taking any actions\n\n**Usage Example:**\n```python\nswarm(\n    task=f\"FIRST ACTION: mem0_memory(action=\x27list\x27, user_id=\x27meta_agent\x27)\nCONTEXT: Built basic API client, implemented GET/POST methods\nOBJECTIVE: Add authentication handling to existing API client\nAVOID: Re-implementing basic HTTP methods already completed\nFOCUS: OAuth2 and JWT authentication patterns\nSUCCESS: Working auth flow with token refresh capability\",\n    swarm_size=3,\n    coordination_pattern=\"collaborative\",\n    "

/-- Fixed template text from after the swarm configuration up to the
second occurrence of the step counters (`- Current Progress: `). -/
def tplCapabilities : String :=
  "\n    tools=[\"shell\", \"editor\", \"load_tool\", \"http_request\", \"mem0_memory\"]\n)\n```\n\n## 2. META-TOOLING (Runtime Tool Creation)\nCreate tools when existing ones are insufficient:\n```python\neditor(action=\"create\", path=\"tools/custom_tool.py\", content=\"...\")\npython_repl(code=\"test code\")\nload_tool(path=\"tools/custom_tool.py\")\n```\n\n## 3. META-LEARNING (Cross-Session Knowledge)\n```python\nmem0_memory(action=\"retrieve\", query=\"similar problem\", user_id=\"meta_agent\")\nmem0_memory(\n    action=\"store\",\n    content=\"strategy: [what worked]\",\n    user_id=\"meta_agent\",\n    metadata=\x7b\"type\": \"solution\", \"domain\": \"...\", \"success\": True\x7d\n)\n```\n\n## 4. META-COGNITION (Self-Reflection)\nContinuously assess and adapt:\n```python\nthink(\n    prompt=\"Analyze current approach\",\n    considerations=[\"confidence level\", \"alternative strategies\", \"tool requirements\"]\n)\n```\n\n## 5. TIME AWARENESS (Temporal Context)\nTrack time for scheduling, deadlines, and temporal analysis:\n```python\ncurrent_time()\n\ncurrent_time(timezone=\"US/Pacific\")\ncurrent_time(timezone=\"Europe/London\")\ncurrent_time(timezone=\"Asia/Tokyo\")\n\ntimestamp = current_time()\nmem0_memory(\n    action=\"store\",\n    content=f\"Task completed at \x7btimestamp\x7d\",\n    user_id=\"meta_agent\",\n    metadata=\x7b\"timestamp\": timestamp, \"type\": \"completion\"\x7d\n)\n```\n</meta_capabilities>\n\n<metacognitive_framework>\n## Confidence-Based Execution\n- **High Confidence (>80%)**: Direct execution with existing tools\n- **Medium Confidence (50-80%)**: Deep reflection, possible tool creation\n- **Low Confidence (<50%)**: Spawn expert agents, extensive memory search\n\n## Adaptive Strategy Selection\n1. Assess problem complexity and domain\n2. Evaluate available tools and past experiences\n3. Select approach based on confidence:\n   - High → Specialized tools\n   - Medium → Create tools or parallel exploration\n   - Low → Multi-agent swarm deployment\n\n## Step Budget Awareness\n- Current Progress: "

/-- Fixed template text from after the urgency advice to the end of the
prompt. -/
def tplProtocols : String :=
  "\n- If approaching limit: Summarize progress and call stop()\n</metacognitive_framework>\n\n<operational_protocols>\n## Memory Protocol\n**MANDATORY**: Store insights after:\n- Successful problem solutions\n- Tool creation (with code and use case)\n- Failed attempts (with lessons learned)\n- Domain knowledge discoveries\n- Performance optimizations\n\nFormat:\n```python\nmem0_memory(\n    action=\"store\",\n    content=\"[INSIGHT] [CONTEXT] [OUTCOME] [REUSABILITY]\",\n    user_id=\"meta_agent\",\n    metadata=\x7b\"type\": \"tool|strategy|knowledge|failure\", \"domain\": \"...\", \"confidence\": \"X%\"\x7d\n)\n```\n\n## Swarm Deployment Protocol\n**Use when**: Problem requires multiple perspectives, parallel exploration, or specialized expertise\n**Configuration**: Always include mem0_memory in tools for knowledge sharing\n**Coordination**: Define clear roles and expected outputs for each agent\n\n## Tool Creation Protocol\n1. Identify capability gap\n2. Design tool specification\n3. Implement with editor\n4. Test with python_repl\n5. Store tool and use case in memory\n6. Load and deploy\n\n## Completion Protocol\nCall stop() when:\n- Objective is fully achieved\n- Unable to proceed (explain limitations)\n- Step budget approaching (summarize progress)\n\nFormat:\n```python\nstop(reason=\"Objective achieved: [specific outcome]\")\nstop(reason=\"Cannot proceed: [specific limitation]\")\nstop(reason=\"Step budget exhausted. Progress: [summary of achievements]\")\n```\n</operational_protocols>\n\n<execution_patterns>\n## Problem-Solving Flow\n1. **Initialize**: Check memory for similar problems\n2. **Analyze**: Understand requirements and constraints\n3. **Plan**: Select strategy based on confidence and remaining steps\n4. **Execute**: Implement with appropriate tools/agents\n5. **Reflect**: Assess outcomes and adapt if needed\n6. **Learn**: Store insights for future use\n7. **Complete**: Call stop() with clear outcome\n\n## Dynamic Adaptation\n- Monitor progress continuously against step budget\n- Adjust strategy based on intermediate results\n- Create tools when patterns emerge\n- Spawn agents when complexity increases\n- Store all valuable insights\n</execution_patterns>\n\n<key_principles>\n- **Unlimited Potential**: You can create any tool or capability needed\n- **Continuous Evolution**: Every problem makes you more capable\n- **Intelligent Adaptation**: Match approach to problem characteristics\n- **Persistent Learning**: Knowledge accumulates across sessions\n- **Autonomous Completion**: Self-determine when objectives are met\n- **Resource Awareness**: Work efficiently within step constraints\n\nRemember: You are Meta-Everything Agent - a system that evolves beyond its initial capabilities. Through tool creation, agent orchestration, and persistent learning, you adapt to solve any challenge. Your growth is bounded only by imagination and the problems you encounter.\n</key_principles>"

/-- Shallow embedding of `get_meta_system_prompt` (prompts.py lines 6-233).
Computes the remaining-step budget and urgency tier, selects the swarm
configuration by backend, renders the optional tools line, and assembles
the full prompt text with the mission parameters interpolated. -/
def getMetaSystemPrompt (objective : String) (current_step : Int) (max_steps : Int)
    (server_type : String) (tools_available : Option String) : String :=
  let remaining_steps := max_steps - current_step
  let urgency := classifyUrgency remaining_steps
  let swarm_config :=
    if server_type == "local" then
      "model_provider=\"ollama\",\n    model_settings=\x7b\"model_id\": \"llama3.2:3b\", \"host\": \"http://localhost:11434\"\x7d,"
    else
      "model_provider=\"bedrock\",\n    model_settings=\x7b\"model_id\": \"us.anthropic.claude-3-7-sonnet-20250219-v1:0\"\x7d,"
  let tools_context :=
    if pyTruthy tools_available then "\n- Available Tools: " ++ tools_available.getD "" else ""
  tplRole ++ objective
    ++ "\n- Current Step: " ++ toString current_step ++ "/" ++ toString max_steps
    ++ "\n- Remaining Steps: " ++ toString remaining_steps
    ++ "\n- Urgency Level: " ++ urgency
    ++ "\n- Server Type: " ++ strUpper server_type
    ++ "\n- Memory System: ENABLED" ++ tools_context
    ++ tplArchitecture ++ swarm_config ++ tplCapabilities
    ++ toString current_step ++ "/" ++ toString max_steps ++ " steps used\n- Urgency: "
    ++ urgency ++ " - "
    ++ (if urgency == "HIGH" then "Complete core objectives immediately"
        else if urgency == "MEDIUM" then "Balance thoroughness with efficiency"
        else "Explore comprehensively")
    ++ tplProtocols

/-- The module-level default prompt of prompts.py (lines 237-242). -/
def META_SYSTEM_PROMPT : String :=
  getMetaSystemPrompt "General problem solving" 1 10 "remote" none

/-- The mutable controller state of a `MetaEverythingAgent` session: the
fields set in `__init__` (agent.py lines 114-140) that the claims are
about.  The model/config fields are external infrastructure and omitted. -/
structure AgentState where
  server_type : String
  objective : Option String
  max_steps : Int
  current_step : Int
  tools_list : String
  system_prompt : String
  created_tools : List String
  spawned_agents : List String
  learning_count : Int

/-- Shallow embedding of `MetaEverythingAgent.__init__` (agent.py lines
114-140): step counter starts at 0, the summary accumulators start empty,
and when the objective is truthy the system prompt is rendered with
`current_step=1`; otherwise the caller-supplied (or default) prompt is
used. -/
def initAgent (objective : Option String) (max_steps : Int) (server_type : String)
    (tools_list : String) (default_prompt : String) : AgentState :=
  { server_type := server_type
    objective := objective
    max_steps := max_steps
    current_step := 0
    tools_list := tools_list
    system_prompt :=
      if pyTruthy objective then
        getMetaSystemPrompt (objective.getD "") 1 max_steps server_type (some tools_list)
      else default_prompt
    created_tools := []
    spawned_agents := []
    learning_count := 0 }

/-- The state update performed by `MetaEverythingAgent.__call__` (agent.py
lines 152-161): increment `current_step`, then regenerate the system
prompt from the live counters — but only while the objective is truthy and
`current_step <= max_steps`. -/
def callUpdate (s : AgentState) : AgentState :=
  let s1 := { s with current_step := s.current_step + 1 }
  if pyTruthy s1.objective = true ∧ s1.current_step ≤ s1.max_steps then
    { s1 with system_prompt :=
        (getMetaSystemPrompt (s1.objective.getD "") s1.current_step s1.max_steps
          s1.server_type (some s1.tools_list)) }
  else s1

/-- The message synthesis of `MetaEverythingAgent.__call__` (agent.py lines
163-166), applied after the step increment: a `None` message becomes a
continuation message when the objective is truthy, and a generic greeting
otherwise. -/
def synthMessage (s : AgentState) (message : Option String) : String :=
  match message with
  | some m => m
  | none =>
    if pyTruthy s.objective then
      "Continue working on the objective. This is step " ++ toString s.current_step
        ++ " of " ++ toString s.max_steps ++ "."
    else "How can I help you today?"

/-- One full execution turn (agent.py lines 145-170): update the state,
synthesize the message, delegate once to the underlying reasoning engine
(`super().__call__`), and return its result unmodified.  The engine is an
external collaborator; a raised exception is its `Except.error` outcome. -/
def metaCall (s : AgentState) (message : Option String)
    (engine : AgentState → String → Except String String) :
    AgentState × Except String String :=
  let s1 := callUpdate s
  let msg := synthMessage s1 message
  (s1, engine s1 msg)

/-- `n` consecutive execution-turn state updates from state `s`. -/
def runTurns (s : AgentState) : Nat → AgentState
  | 0 => s
  | n + 1 => callUpdate (runTurns s n)

/-- The remaining-budget value handed to the urgency classification on the
turn taken from state `s`: the prompt is regenerated (and hence
`classifyUrgency` invoked) only when the incremented step is within the
budget, in which case the classifier sees `max_steps - current_step` for
the incremented step; otherwise no classification happens this turn. -/
def classifierInput (s : AgentState) : Option Int :=
  if pyTruthy s.objective = true ∧ s.current_step + 1 ≤ s.max_steps then
    some (s.max_steps - (s.current_step + 1))
  else none

/-- Shallow embedding of `MetaEverythingAgent._initialize_context`
(agent.py lines 172-184): the external memory-retrieve call either
returns a list of memories or raises; the method catches any exception and
logs a warning, logs an info line when memories were found, and never
fails.  The returned value is the log produced. -/
def initContext (memResult : Except String (List String)) : List String :=
  match memResult with
  | .ok memories =>
      if memories.length > 0 then
        ["INFO: Found " ++ toString memories.length ++ " relevant memories"]
      else []
  | .error e => ["WARNING: Memory initialization failed: " ++ e]

/-- Full session construction (agent.py lines 114-143): build the state,
then — when an objective is present — run `_initialize_context` against
the outcome of the external memory-retrieve call.  Returns the constructed
state together with the log of the memory priming step. -/
def initAgentFull (objective : Option String) (max_steps : Int) (server_type : String)
    (tools_list : String) (default_prompt : String)
    (memResult : Except String (List String)) : AgentState × List String :=
  let s := initAgent objective max_steps server_type tools_list default_prompt
  if pyTruthy objective then (s, initContext memResult) else (s, [])

/-- Shallow embedding of `MetaEverythingAgent.reset` (agent.py lines
186-191). -/
def reset (s : AgentState) : AgentState :=
  { s with current_step := 0
           created_tools := []
           spawned_agents := []
           learning_count := 0 }

/-- Shallow embedding of `MetaEverythingAgent.get_execution_summary`
(agent.py lines 193-200). -/
def getExecutionSummary (s : AgentState) : Int × List String × List String × Int :=
  (s.current_step, s.created_tools, s.spawned_agents, s.learning_count)

/-- Unfolding of `callUpdate` into a single conditional. -/
theorem callUpdate_eq (s : AgentState) :
    callUpdate s
      = if pyTruthy s.objective = true ∧ s.current_step + 1 ≤ s.max_steps then
          { s with current_step := s.current_step + 1
                   system_prompt :=
                     (getMetaSystemPrompt (s.objective.getD "") (s.current_step + 1)
                       s.max_steps s.server_type (some s.tools_list)) }
        else { s with current_step := s.current_step + 1 } := rfl

theorem callUpdate_current_step (s : AgentState) :
    (callUpdate s).current_step = s.current_step + 1 := by
  rw [callUpdate_eq]; split <;> rfl

theorem callUpdate_objective (s : AgentState) :
    (callUpdate s).objective = s.objective := by
  rw [callUpdate_eq]; split <;> rfl

theorem callUpdate_max_steps (s : AgentState) :
    (callUpdate s).max_steps = s.max_steps := by
  rw [callUpdate_eq]; split <;> rfl

theorem callUpdate_server_type (s : AgentState) :
    (callUpdate s).server_type = s.server_type := by
  rw [callUpdate_eq]; split <;> rfl

theorem callUpdate_tools_list (s : AgentState) :
    (callUpdate s).tools_list = s.tools_list := by
  rw [callUpdate_eq]; split <;> rfl

/-- On an in-budget turn the system prompt is regenerated from the
incremented counters. -/
theorem callUpdate_prompt_of_le (s : AgentState) (hobj : pyTruthy s.objective = true)
    (hle : s.current_step + 1 ≤ s.max_steps) :
    (callUpdate s).system_prompt
      = getMetaSystemPrompt (s.objective.getD "") (s.current_step + 1) s.max_steps
          s.server_type (some s.tools_list) := by
  rw [callUpdate_eq, if_pos ⟨hobj, hle⟩]

/-- On an out-of-budget turn (or without an objective) the previous system
prompt is retained. -/
theorem callUpdate_prompt_of_gt (s : AgentState)
    (h : ¬(pyTruthy s.objective = true ∧ s.current_step + 1 ≤ s.max_steps)) :
    (callUpdate s).system_prompt = s.system_prompt := by
  rw [callUpdate_eq, if_neg h]

theorem runTurns_current_step (s : AgentState) (n : Nat) :
    (runTurns s n).current_step = s.current_step + n := by
  induction n with
  | zero => simp [runTurns]
  | succ n ih => rw [runTurns, callUpdate_current_step, ih]; push_cast; ring

theorem runTurns_objective (s : AgentState) (n : Nat) :
    (runTurns s n).objective = s.objective := by
  induction n with
  | zero => rfl
  | succ n ih => rw [runTurns, callUpdate_objective, ih]

theorem runTurns_max_steps (s : AgentState) (n : Nat) :
    (runTurns s n).max_steps = s.max_steps := by
  induction n with
  | zero => rfl
  | succ n ih => rw [runTurns, callUpdate_max_steps, ih]

theorem runTurns_server_type (s : AgentState) (n : Nat) :
    (runTurns s n).server_type = s.server_type := by
  induction n with
  | zero => rfl
  | succ n ih => rw [runTurns, callUpdate_server_type, ih]

theorem runTurns_tools_list (s : AgentState) (n : Nat) :
    (runTurns s n).tools_list = s.tools_list := by
  induction n with
  | zero => rfl
  | succ n ih => rw [runTurns, callUpdate_tools_list, ih]

/-- C1: For every integer remaining-step budget, the urgency classification
is HIGH when remaining < 3 (including every negative value), MEDIUM when
3 ≤ remaining < 7, and LOW when remaining ≥ 7; in particular remaining = 7
yields LOW, remaining = 6 and remaining = 3 yield MEDIUM, and remaining = 2
yields HIGH. -/
theorem classify_urgency_thresholds (r : Int) :
    (r < 3 → classifyUrgency r = "HIGH")
    ∧ (3 ≤ r → r < 7 → classifyUrgency r = "MEDIUM")
    ∧ (7 ≤ r → classifyUrgency r = "LOW")
    ∧ classifyUrgency 7 = "LOW" ∧ classifyUrgency 6 = "MEDIUM"
    ∧ classifyUrgency 3 = "MEDIUM" ∧ classifyUrgency 2 = "HIGH" := by
  refine ⟨?_, ?_, ?_, by decide, by decide, by decide, by decide⟩
  · intro h
    unfold classifyUrgency
    rw [if_pos h]
  · intro h1 h2
    unfold classifyUrgency
    rw [if_neg (by omega), if_pos h2]
  · intro h
    unfold classifyUrgency
    rw [if_neg (by omega), if_neg (by omega)]

/-- Witness for C1 at the concrete negative input remaining = -5. -/
theorem classify_urgency_thresholds_witness : classifyUrgency (-5) = "HIGH" :=
  (classify_urgency_thresholds (-5)).1 (by decide)

/-- C4: Two calls of the context-rendering function with identical
arguments (objective, current_step, max_steps, server_type,
tools_available) return byte-identical text. -/
theorem render_deterministic (o1 o2 : String) (c1 c2 m1 m2 : Int) (st1 st2 : String)
    (t1 t2 : Option String) (ho : o1 = o2) (hc : c1 = c2) (hm : m1 = m2)
    (hst : st1 = st2) (ht : t1 = t2) :
    getMetaSystemPrompt o1 c1 m1 st1 t1 = getMetaSystemPrompt o2 c2 m2 st2 t2 := by
  subst ho hc hm hst ht
  rfl

/-- Witness for C4 at a concrete argument tuple. -/
theorem render_deterministic_witness :
    getMetaSystemPrompt "x" 1 10 "remote" none = getMetaSystemPrompt "x" 1 10 "remote" none :=
  render_deterministic "x" "x" 1 1 10 10 "remote" "remote" none none rfl rfl rfl rfl rfl

/-- C6: reset() sets current_step to 0 and clears the execution-summary
accumulators (created tools list, spawned agents list, learning count),
leaving max_steps and the objective unchanged. -/
theorem reset_clears_counters_and_summary (s : AgentState) :
    (reset s).current_step = 0
    ∧ (reset s).created_tools = []
    ∧ (reset s).spawned_agents = []
    ∧ (reset s).learning_count = 0
    ∧ (reset s).max_steps = s.max_steps
    ∧ (reset s).objective = s.objective :=
  ⟨rfl, rfl, rfl, rfl, rfl, rfl⟩

/-- C7: Every exception of the memory-retrieve call during initialization
with an objective is caught: construction returns the same state as it
would otherwise, and the only effect is a logged warning. -/
theorem memory_failure_nonfatal (objective : Option String) (M : Int)
    (st tools d e : String) (hobj : pyTruthy objective = true) :
    initAgentFull objective M st tools d (.error e)
      = (initAgent objective M st tools d,
         ["WARNING: Memory initialization failed: " ++ e]) := by
  unfold initAgentFull
  rw [if_pos hobj]
  rfl

/-- Witness for C7: construction with a failing memory call at a concrete
objective. -/
theorem memory_failure_nonfatal_witness :
    initAgentFull (some "o") 10 "remote" "t" "d" (.error "boom")
      = (initAgent (some "o") 10 "remote" "t" "d",
         ["WARNING: Memory initialization failed: " ++ "boom"]) :=
  memory_failure_nonfatal (some "o") 10 "remote" "t" "d" "boom" (by decide)

/-- C8: An error outcome of the delegated reasoning turn is returned to
the caller unmodified: the driver's result is exactly the single engine
invocation's result, with no retry and no handler. -/
theorem turn_error_propagates (s : AgentState) (message : Option String)
    (engine : AgentState → String → Except String String) (e : String)
    (h : engine (callUpdate s) (synthMessage (callUpdate s) message)
           = Except.error e) :
    (metaCall s message engine).2 = Except.error e
    ∧ (metaCall s message engine).2
        = engine (callUpdate s) (synthMessage (callUpdate s) message) := by
  constructor
  · show engine (callUpdate s) (synthMessage (callUpdate s) message) = Except.error e
    exact h
  · rfl

/-- An engine that always raises, used as the concrete C8 witness input. -/
def engineFail : AgentState → String → Except String String := fun _ _ => .error "boom"

/-- Witness for C8: an engine error on a concrete turn propagates. -/
theorem turn_error_propagates_witness :
    (metaCall (initAgent (some "o") 10 "remote" "t" "d") none engineFail).2
      = Except.error "boom" :=
  (turn_error_propagates (initAgent (some "o") 10 "remote" "t" "d") none engineFail
     "boom" rfl).1

/-- C9: A turn invoked with no explicit message on a session whose
objective is set synthesizes the continuation message from the live
counters of that turn: the incremented current_step and the unchanged
max_steps appear verbatim in "step X of Y". -/
theorem default_continuation_message (s : AgentState)
    (hobj : pyTruthy s.objective = true) :
    synthMessage (callUpdate s) none
      = "Continue working on the objective. This is step "
        ++ toString (s.current_step + 1) ++ " of " ++ toString s.max_steps ++ "."
    ∧ (callUpdate s).current_step = s.current_step + 1
    ∧ (callUpdate s).max_steps = s.max_steps := by
  refine ⟨?_, callUpdate_current_step s, callUpdate_max_steps s⟩
  unfold synthMessage
  rw [callUpdate_objective, callUpdate_current_step, callUpdate_max_steps, if_pos hobj]

/-- Witness for C9 at a concrete session state on its fourth turn. -/
theorem default_continuation_message_witness :
    synthMessage (callUpdate (runTurns (initAgent (some "o") 10 "remote" "t" "d") 3)) none
      = "Continue working on the objective. This is step "
        ++ toString ((runTurns (initAgent (some "o") 10 "remote" "t" "d") 3).current_step + 1)
        ++ " of " ++ toString ((runTurns (initAgent (some "o") 10 "remote" "t" "d") 3).max_steps)
        ++ "." :=
  (default_continuation_message (runTurns (initAgent (some "o") 10 "remote" "t" "d") 3)
    (by decide)).1

/-- C2 (amended): On every execution-turn invocation of a session with a
set objective whose incremented current_step is within max_steps, the
system prompt is regenerated from the turn's live counters and fully
replaces the previous prompt; on turns whose current_step exceeds
max_steps the previous prompt is retained unchanged. -/
theorem system_prompt_regeneration_guarded (s : AgentState)
    (hobj : pyTruthy s.objective = true) :
    (s.current_step + 1 ≤ s.max_steps →
      (callUpdate s).system_prompt
        = getMetaSystemPrompt (s.objective.getD "") (s.current_step + 1) s.max_steps
            s.server_type (some s.tools_list))
    ∧ (s.max_steps < s.current_step + 1 →
      (callUpdate s).system_prompt = s.system_prompt) := by
  constructor
  · intro hle
    exact callUpdate_prompt_of_le s hobj hle
  · intro hgt
    exact callUpdate_prompt_of_gt s fun hand => absurd hand.2 (by omega)

/-- Witness for C2's amended statement: the first turn of a fresh session
with max_steps = 10 regenerates the prompt from the incremented counter. -/
theorem system_prompt_regeneration_guarded_witness :
    (callUpdate (initAgent (some "o") 10 "remote" "t" "d")).system_prompt
      = getMetaSystemPrompt
          (((initAgent (some "o") 10 "remote" "t" "d").objective).getD "")
          ((initAgent (some "o") 10 "remote" "t" "d").current_step + 1)
          ((initAgent (some "o") 10 "remote" "t" "d").max_steps)
          ((initAgent (some "o") 10 "remote" "t" "d").server_type)
          (some ((initAgent (some "o") 10 "remote" "t" "d").tools_list)) :=
  (system_prompt_regeneration_guarded (initAgent (some "o") 10 "remote" "t" "d")
    (by decide)).1 (by decide)

set_option maxRecDepth 1000000 in
/-- C2 counterexample: with max_steps = 1, the second turn's prompt is NOT
the one rendered from that turn's counters (current_step = 2); the turn-1
prompt is retained instead. -/
theorem system_prompt_not_regenerated_past_budget :
    (callUpdate (runTurns (initAgent (some "o") 1 "remote" "t" "d") 1)).system_prompt
      ≠ getMetaSystemPrompt "o" 2 1 "remote" (some "t")
    ∧ (callUpdate (runTurns (initAgent (some "o") 1 "remote" "t" "d") 1)).system_prompt
      = (runTurns (initAgent (some "o") 1 "remote" "t" "d") 1).system_prompt := by
  constructor
  · decide
  · rfl

/-- The system prompt installed at construction when the objective is
truthy is the one rendered with current_step = 1. -/
theorem initAgent_prompt_of_truthy (objective : Option String) (M : Int)
    (st tools d : String) (hobj : pyTruthy objective = true) :
    (initAgent objective M st tools d).system_prompt
      = getMetaSystemPrompt (objective.getD "") 1 M st (some tools) := by
  unfold initAgent
  dsimp only
  rw [if_pos hobj]

/-- C3 (amended): current_step equals the number of execution-turn
invocations performed, so the invariant current_step ≤ max_steps + 1 holds
exactly while at most max_steps + 1 invocations have been made; the
controller itself never caps the counter. -/
theorem current_step_counts_invocations (objective : Option String) (M : Int)
    (st tools d : String) (N : Nat) (h : (N : Int) ≤ M + 1) :
    (runTurns (initAgent objective M st tools d) N).current_step = N
    ∧ (runTurns (initAgent objective M st tools d) N).current_step
        ≤ (runTurns (initAgent objective M st tools d) N).max_steps + 1 := by
  have h1 := runTurns_current_step (initAgent objective M st tools d) N
  have h2 := runTurns_max_steps (initAgent objective M st tools d) N
  have h3 : (initAgent objective M st tools d).current_step = 0 := rfl
  have h4 : (initAgent objective M st tools d).max_steps = M := rfl
  rw [h3] at h1
  rw [h4] at h2
  constructor
  · omega
  · omega

/-- Witness for C3's amended statement after 5 of 10 steps. -/
theorem current_step_counts_invocations_witness :
    (runTurns (initAgent (some "o") 10 "remote" "t" "d") 5).current_step = (5 : Nat)
    ∧ (runTurns (initAgent (some "o") 10 "remote" "t" "d") 5).current_step
        ≤ (runTurns (initAgent (some "o") 10 "remote" "t" "d") 5).max_steps + 1 :=
  current_step_counts_invocations (some "o") 10 "remote" "t" "d" 5 (by decide)

/-- C3 counterexample: the claimed invariant current_step ≤ max_steps + 1
fails in the reachable state after 12 invocations of a session with
max_steps = 10. -/
theorem step_invariant_violated_after_overrun :
    (runTurns (initAgent (some "o") 10 "remote" "t" "d") 12).current_step = 12
    ∧ ¬((runTurns (initAgent (some "o") 10 "remote" "t" "d") 12).current_step
        ≤ (runTurns (initAgent (some "o") 10 "remote" "t" "d") 12).max_steps + 1) := by
  decide

/-- C5 (amended): after N execution-turn invocations current_step = N; the
urgency classification on a turn is only reached while the incremented
step is within max_steps, and then receives remaining = M - step for the
incremented step (never a negative value); in particular with M = 10 the
first turn runs at step 1 with remaining 9 (LOW) and the eighth at step 8
with remaining 2 (HIGH). -/
theorem step_and_remaining_after_turns (obj : String) (M : Int) (st tools d : String)
    (N : Nat) (hobj : pyTruthy (some obj) = true) :
    (runTurns (initAgent (some obj) M st tools d) N).current_step = N
    ∧ ((N : Int) + 1 ≤ M →
        classifierInput (runTurns (initAgent (some obj) M st tools d) N)
          = some (M - ((N : Int) + 1)))
    ∧ (M < (N : Int) + 1 →
        classifierInput (runTurns (initAgent (some obj) M st tools d) N) = none)
    ∧ ((N : Int) + 1 ≤ M →
        (callUpdate (runTurns (initAgent (some obj) M st tools d) N)).system_prompt
          = getMetaSystemPrompt obj ((N : Int) + 1) M st (some tools))
    ∧ classifierInput (initAgent (some "o") 10 "remote" "t" "d") = some 9
    ∧ classifyUrgency 9 = "LOW"
    ∧ (runTurns (initAgent (some "o") 10 "remote" "t" "d") 8).current_step = 8
    ∧ classifierInput (runTurns (initAgent (some "o") 10 "remote" "t" "d") 7) = some 2
    ∧ classifyUrgency 2 = "HIGH" := by
  have h1 := runTurns_current_step (initAgent (some obj) M st tools d) N
  have h3 : (initAgent (some obj) M st tools d).current_step = 0 := rfl
  rw [h3] at h1
  have hc : (runTurns (initAgent (some obj) M st tools d) N).current_step = (N : Int) := by
    omega
  have ho : (runTurns (initAgent (some obj) M st tools d) N).objective = some obj := by
    rw [runTurns_objective]; rfl
  have hm : (runTurns (initAgent (some obj) M st tools d) N).max_steps = M := by
    rw [runTurns_max_steps]; rfl
  have hst : (runTurns (initAgent (some obj) M st tools d) N).server_type = st := by
    rw [runTurns_server_type]; rfl
  have htl : (runTurns (initAgent (some obj) M st tools d) N).tools_list = tools := by
    rw [runTurns_tools_list]; rfl
  refine ⟨hc, ?_, ?_, ?_, by decide, by decide, by decide, by decide, by decide⟩
  · intro h
    unfold classifierInput
    rw [ho, hc, hm, if_pos ⟨hobj, h⟩]
  · intro h
    unfold classifierInput
    rw [ho, hc, hm, if_neg (fun hand => absurd hand.2 (by omega))]
  · intro h
    have hobj2 : pyTruthy (runTurns (initAgent (some obj) M st tools d) N).objective
        = true := by rw [ho]; exact hobj
    have hle2 : (runTurns (initAgent (some obj) M st tools d) N).current_step + 1
        ≤ (runTurns (initAgent (some obj) M st tools d) N).max_steps := by
      rw [hc, hm]; exact h
    rw [callUpdate_prompt_of_le _ hobj2 hle2, ho, hc, hm, hst, htl]
    rfl

/-- Witness for C5's amended statement after 5 of 10 steps. -/
theorem step_and_remaining_after_turns_witness :
    (runTurns (initAgent (some "o") 10 "remote" "t" "d") 5).current_step = (5 : Nat)
    ∧ classifierInput (runTurns (initAgent (some "o") 10 "remote" "t" "d") 5)
        = some (10 - (((5 : Nat) : Int) + 1)) := by
  have h := step_and_remaining_after_turns "o" 10 "remote" "t" "d" 5 (by decide)
  exact ⟨h.1, h.2.1 (by decide)⟩

/-- C5 counterexample: with max_steps = 1, the second invocation performs
no urgency classification at all, instead of supplying the negative
remaining budget 1 - 2 that the claim asserts. -/
theorem classifier_not_supplied_negative_remaining :
    classifierInput (runTurns (initAgent (some "o") 1 "remote" "t" "d") 1) = none
    ∧ ¬(classifierInput (runTurns (initAgent (some "o") 1 "remote" "t" "d") 1)
        = some ((1 : Int) - 2)) := by
  decide

/-- C10: For a session constructed with an objective (and a positive step
budget), the construction-time system prompt is rendered with
current_step = 1 although the counter starts at 0, and the prompt after
the first execution-turn invocation is that same rendered text. -/
theorem construction_prompt_matches_first_turn (obj : String) (M : Int)
    (st tools d : String) (hobj : pyTruthy (some obj) = true) (hM : 1 ≤ M) :
    (initAgent (some obj) M st tools d).current_step = 0
    ∧ (initAgent (some obj) M st tools d).system_prompt
        = getMetaSystemPrompt obj 1 M st (some tools)
    ∧ (callUpdate (initAgent (some obj) M st tools d)).system_prompt
        = getMetaSystemPrompt obj 1 M st (some tools) := by
  refine ⟨rfl, ?_, ?_⟩
  · exact initAgent_prompt_of_truthy (some obj) M st tools d hobj
  · exact callUpdate_prompt_of_le (initAgent (some obj) M st tools d) hobj
      (show (0 : Int) + 1 ≤ M by omega)

/-- Witness for C10 at a concrete session with max_steps = 10. -/
theorem construction_prompt_matches_first_turn_witness :
    (initAgent (some "o") 10 "remote" "t" "d").current_step = 0
    ∧ (initAgent (some "o") 10 "remote" "t" "d").system_prompt
        = getMetaSystemPrompt "o" 1 10 "remote" (some "t")
    ∧ (callUpdate (initAgent (some "o") 10 "remote" "t" "d")).system_prompt
        = getMetaSystemPrompt "o" 1 10 "remote" (some "t") :=
  construction_prompt_matches_first_turn "o" 10 "remote" "t" "d" (by decide) (by decide)
